import Mathlib

/-!
Shallow embedding of `res/production/wind/wind.py` (RESKit): the turbine
library and the `simulateTurbine` routine, with its input normalization,
parameter broadcasting (`fixVal`), projection dispatch, spline evaluation,
boundary clipping and output assembly.

Numeric values (python floats) are modelled as rationals.  The external
collaborators that are not part of this module — `res.weather.windutil.
projectByLogLaw`, `projectByPowerLaw` and scipy's `splrep`/`splev` — are
modelled from the spec as arbitrary elementwise functions gathered in the
`Collaborators` structure: the spec states both projection laws preserve
input shape, and the spline fit/evaluation is an opaque smooth interpolant
evaluated pointwise.
-/

namespace Wind

set_option maxRecDepth 2000

/-- Errors raised by the routine.  Each constructor notes the exact python
behaviour it stands for. -/
inductive ResError : Type where
  /-- Raised as `ResError("Could not understand Input")` — unrecognized windspeed container. -/
  | UnsupportedInputKind
  /-- Raised as `ResError("When projecting, both a measuredHeight and hubHeight must be provided")`. -/
  | IncompleteProjectionParameters
  /-- Raised as `ResError(name + " does not have an appropriate length")` or
  `ResError(name + " does not have an appropriate shape")` inside `fixVal`. -/
  | ShapeMismatch (name : String)
  /-- Raised as `ResError("%s indexes do not match windspeed columns" % name)` inside `fixVal`. -/
  | LabelMismatch (name : String)
  /-- Raised as `ResError(name + " is not appropriate. (must be a numeric type, ...")`. -/
  | BadParamType (name : String)
  /-- Raised as `ResError("When projecting, either roughness or alpha must be given")`. -/
  | MissingProjectionLaw
  /-- python `KeyError` from `TurbineLibrary[performance]` on a missing key. -/
  | UnknownTurbine (name : String)
  /-- uncontrolled python `AttributeError`: a `pd.Series` windspeed has no
  `.columns`, so `fixVal`'s label check crashes. -/
  | AttributeError
  /-- uncontrolled python `IndexError`: `windspeed[0]` on an empty list. -/
  | IndexError
  /-- python `ValueError`: `.max()` over an empty array. -/
  | ValueError
deriving DecidableEq, Repr

/-- The windspeed argument's possible container kinds.  `other` stands for
any python object that is not a `pd.DataFrame`, `pd.Series`, `np.ndarray`
or `list` — i.e. every input whose shape/type the routine does not
recognize. -/
inductive WindInput : Type where
  /-- A `pd.DataFrame` with row index `index`, column labels `columns`, and
  rows `data` (time along rows, one column per series). -/
  | dataframe (index : List String) (columns : List String) (data : List (List ℚ))
  /-- A `pd.Series` with index `index`, name `name` and values `data`. -/
  | series (index : List String) (name : String) (data : List ℚ)
  /-- 1-dimensional `np.ndarray`. -/
  | ndarray1 (data : List ℚ)
  /-- 2-dimensional `np.ndarray`, rows = time, columns = series. -/
  | ndarray2 (data : List (List ℚ))
  /-- python `list` of numbers (a single time series). -/
  | list1 (data : List ℚ)
  /-- python `list` of `list`s of numbers: each inner list is one series
  (the code runs `np.column_stack` over it). -/
  | listOfLists (data : List (List ℚ))
  /-- any other python object. -/
  | other (desc : String)
deriving DecidableEq, Repr

/-- The performance argument: either a turbine-library key or an explicit
sequence of (windspeed, power) pairs (python list or `np.ndarray`). -/
inductive PerfInput : Type where
  | name (s : String)
  | pairs (ps : List (ℚ × ℚ))
deriving DecidableEq, Repr

/-- A raw projection parameter (`measuredHeight`, `hubHeight`, `roughness`
or `alpha`) as the caller may pass it. -/
inductive PVal : Type where
  /-- python `None`. -/
  | none
  /-- a python `float` or `int`. -/
  | scalar (x : ℚ)
  /-- a python `list` of numbers. -/
  | list (xs : List ℚ)
  /-- a 1-dimensional `np.ndarray`, shape `(len xs,)`. -/
  | ndarray1 (xs : List ℚ)
  /-- a 2-dimensional `np.ndarray`, shape `(rows, cols)`. -/
  | ndarray2 (xss : List (List ℚ))
  /-- a `pd.Series` with index `labels`, shape `(len xs,)`. -/
  | pseries (labels : List String) (xs : List ℚ)
  /-- a `pd.DataFrame` with row index `index` and columns `cols`. -/
  | pdframe (index : List String) (cols : List String) (data : List (List ℚ))
  /-- any other python object (not numeric, not a recognized container). -/
  | other (desc : String)
deriving DecidableEq, Repr

/-- The value of a projection parameter after `fixVal`. -/
inductive FixedVal : Type where
  | none
  | scalar (x : ℚ)
  /-- an unlabeled per-series vector (`np.ndarray` of shape `(N,)`). -/
  | vec (xs : List ℚ)
  /-- a `pd.Series` kept labeled (windspeed was a `DataFrame` and labels matched). -/
  | labeled (labels : List String) (xs : List ℚ)
deriving DecidableEq, Repr

/-- The per-series value a fixed parameter contributes to column `j` under
numpy broadcasting: a scalar applies to every series, a vector by position. -/
def FixedVal.valAt : FixedVal → Nat → ℚ
  | .none, _ => 0
  | .scalar x, _ => x
  | .vec xs, j => xs.getD j 0
  | .labeled _ xs, j => xs.getD j 0

/-- The per-series property the broadcaster establishes for an accepted
parameter: absent, a broadcast scalar, or a vector with exactly one entry
per series. -/
def FixedVal.lenOK : FixedVal → Nat → Prop
  | .none, _ => True
  | .scalar _, _ => True
  | .vec xs, N => xs.length = N
  | .labeled _ xs, N => xs.length = N

/-- What the windspeed batch looks like to `fixVal`: an unlabeled numpy
batch, a labeled table (with its column labels), or a labeled single
series (`pd.Series`, which has no `.columns` attribute). -/
inductive BatchKind : Type where
  | np
  | df (cols : List String)
  | sr
deriving DecidableEq, Repr

/-- The canonical form produced by the input-normalization block
(lines 82–107 of `wind.py`): the flags `isNumpy`/`isSeries`, the series
count `N`, the labeling metadata, whether a numpy input was 1-dimensional,
and the wind-speed values as a (time × N) row matrix. -/
structure Normalized : Type where
  isNumpy : Bool
  isSeries : Bool
  oneD : Bool
  N : Nat
  index : List String
  columns : List String
  matrix : List (List ℚ)
deriving DecidableEq, Repr

/-- The batch kind seen by `fixVal` (which reads `isNumpy` and, for label
checks, `windspeed.columns`). -/
def Normalized.batchKind (n : Normalized) : BatchKind :=
  if n.isNumpy then .np else if n.isSeries then .sr else .df n.columns

/-- The external collaborators consumed by the routine, modelled from the
spec: `projectByLogLaw`/`projectByPowerLaw` (from `res.weather.windutil`,
not part of this module; the spec says both preserve input shape, so they
are elementwise in the speed with per-series parameters), and scipy's
spline evaluated pointwise (`splev` applied to the knots produced by
`splrep` on the curve's windspeed and power columns). -/
structure Collaborators : Type where
  /-- The call `projectByLogLaw(speed, measuredHeight, targetHeight, roughness)`, elementwise. -/
  projectByLogLaw : ℚ → ℚ → ℚ → ℚ → ℚ
  /-- The call `projectByPowerLaw(speed, measuredHeight, targetHeight, alpha)`, elementwise. -/
  projectByPowerLaw : ℚ → ℚ → ℚ → ℚ → ℚ
  /-- The value `splev(x, splrep(ws, pw))` for a single point `x`, given the knot
  columns `ws` and `pw` in the order they are passed to `splrep`. -/
  splev : List ℚ → List ℚ → ℚ → ℚ

/-- The built-in Enercon E115 performance curve (lines 12–28 of `wind.py`). -/
def EnerconE115 : List (ℚ × ℚ) :=
  [(0, 0), (1, 0), (2, 0), (3, 45), (4, 122), (5, 326), (6, 632),
   (7, 1053), (8, 1524), (9, 2123), (10, 2569), (11, 2938), (12, 3000),
   (13, 3000), (24, 3000), (25, 3000)]

/-- The turbine model library (`TurbineLibrary` in `wind.py`), holding the
single built-in Enercon E115 performance curve. -/
def TurbineLibrary : List (String × List (ℚ × ℚ)) :=
  [("Enercon_E115", EnerconE115)]

/-- Input normalization, lines 82–107: dispatch on the container type of
`windspeed`, producing the canonical batch or an error.  A list input is
probed with `windspeed[0][0]`: an empty outer or first inner list raises
an uncaught `IndexError`; a flat numeric list raises `TypeError`, which is
caught and means a single series; a list of lists is column-stacked. -/
def normalizeInput : WindInput → Except ResError Normalized
  | .dataframe idx cols data =>
      .ok ⟨false, false, false, cols.length, idx, cols, data⟩
  | .series idx _ data =>
      .ok ⟨false, true, false, 1, idx, [], data.map (fun x => [x])⟩
  | .ndarray1 data =>
      .ok ⟨true, false, true, 1, [], [], data.map (fun x => [x])⟩
  | .ndarray2 data =>
      .ok ⟨true, false, false, (data.headD []).length, [], [], data⟩
  | .list1 data =>
      if data.isEmpty then .error .IndexError
      else .ok ⟨true, false, true, 1, [], [], data.map (fun x => [x])⟩
  | .listOfLists data =>
      if data.isEmpty || (data.headD []).isEmpty then .error .IndexError
      else .ok ⟨true, false, false, data.length, [], [], data.transpose⟩
  | .other _ => .error .UnsupportedInputKind

/-- Performance resolution, lines 110–114: a string is looked up in
`TurbineLibrary` (a missing key raises), a pair sequence is used directly
(a list is converted with `np.array`, which keeps the order). -/
def resolvePerformance (catalog : List (String × List (ℚ × ℚ))) :
    PerfInput → Except ResError (List (ℚ × ℚ))
  | .name s =>
      match catalog.find? (fun kv => kv.1 == s) with
      | some kv => .ok kv.2
      | none => .error (.UnknownTurbine s)
  | .pairs ps => .ok ps

/-- The label check at the end of `fixVal`'s pandas branch: with a numpy
batch the values are taken (`val.values`); otherwise `val.index` is
compared with `windspeed.columns` — which, when the batch is a
`pd.Series`, does not exist and raises `AttributeError`. -/
def labelCheck (kind : BatchKind) (name : String) (labels : List String)
    (xs : List ℚ) : Except ResError FixedVal :=
  match kind with
  | .np => .ok (.vec xs)
  | .df cols =>
      if labels = cols then .ok (.labeled labels xs)
      else .error (.LabelMismatch name)
  | .sr => .error .AttributeError

/-- The parameter broadcaster `fixVal` (lines 125–147): floats/ints pass
through as scalars; a list must have length `N`; a numpy array must have
shape `(N,)` or `(N,1)` (column-collapsed); a pandas object must have
shape `(N,)` or `(N,1)` and is then label-checked against the windspeed
columns unless the batch is numpy; `None` passes through; anything else
is rejected. -/
def fixVal (kind : BatchKind) (N : Nat) (val : PVal) (name : String) :
    Except ResError FixedVal :=
  match val with
  | .none => .ok .none
  | .scalar x => .ok (.scalar x)
  | .list xs =>
      if xs.length = N then .ok (.vec xs)
      else .error (.ShapeMismatch name)
  | .ndarray1 xs =>
      if xs.length = N then .ok (.vec xs)
      else .error (.ShapeMismatch name)
  | .ndarray2 xss =>
      if xss.length = N ∧ (xss.headD []).length = 1 then
        .ok (.vec (xss.map (fun r => r.headD 0)))
      else .error (.ShapeMismatch name)
  | .pseries labels xs =>
      if xs.length = N then labelCheck kind name labels xs
      else .error (.ShapeMismatch name)
  | .pdframe idx cols data =>
      if data.length = N ∧ cols.length = 1 then
        labelCheck kind name idx (data.map (fun r => r.headD 0))
      else .error (.ShapeMismatch name)
  | .other _ => .error (.BadParamType name)

/-- Elementwise projection of the wind-speed matrix: entry `(i, j)` is
projected with the per-series parameter values for column `j` (numpy
broadcasting of a scalar or a length-`N` vector against a `(time, N)`
matrix). -/
def projectMatrix (f : ℚ → ℚ → ℚ → ℚ → ℚ) (m : List (List ℚ))
    (mh hh p : FixedVal) : List (List ℚ) :=
  m.map (fun row =>
    row.enum.map (fun js => f js.2 (mh.valAt js.1) (hh.valAt js.1) (p.valAt js.1)))

/-- The projection block (lines 119–163): skipped when all four parameters
are `None`; otherwise both heights are required, the four parameters are
fixed in source order, and the log law is used when roughness is present,
else the power law when alpha is present, else the call fails. -/
def projectStage (ext : Collaborators) (n : Normalized)
    (measuredHeight roughness alpha hubHeight : PVal) :
    Except ResError Normalized :=
  if measuredHeight = PVal.none ∧ hubHeight = PVal.none ∧
      roughness = PVal.none ∧ alpha = PVal.none then
    .ok n
  else if measuredHeight = PVal.none ∨ hubHeight = PVal.none then
    .error .IncompleteProjectionParameters
  else
    match fixVal n.batchKind n.N measuredHeight "measuredHeight" with
    | .error e => .error e
    | .ok fmh =>
      match fixVal n.batchKind n.N hubHeight "hubHeight" with
      | .error e => .error e
      | .ok fhh =>
        match fixVal n.batchKind n.N roughness "roughness" with
        | .error e => .error e
        | .ok fr =>
          match fixVal n.batchKind n.N alpha "alpha" with
          | .error e => .error e
          | .ok fa =>
            if fr ≠ FixedVal.none then
              .ok { n with matrix := projectMatrix ext.projectByLogLaw n.matrix fmh fhh fr }
            else if fa ≠ FixedVal.none then
              .ok { n with matrix := projectMatrix ext.projectByPowerLaw n.matrix fmh fhh fa }
            else .error .MissingProjectionLaw

/-- Minimum of a numpy array (`.min()`); 0 on the empty list, which the
routine never reaches because the empty curve raises first. -/
def npMin : List ℚ → ℚ
  | [] => 0
  | x :: xs => xs.foldl min x

/-- Maximum of a numpy array (`.max()`); 0 on the empty list. -/
def npMax : List ℚ → ℚ
  | [] => 0
  | x :: xs => xs.foldl max x

/-- The "just in case" clean-up of lines 178–185 for one matrix entry,
in source order: floor at 0, then ceiling at `maxPower`, then force to 0
whenever the (projected) wind speed is strictly below cut-in or strictly
above cut-out — so the earlier clips can never undo the zeroing. -/
def cleanPower (maxPower cutin cutout : ℚ) (speed raw : ℚ) : ℚ :=
  let v1 := if raw < 0 then 0 else raw
  let v2 := if v1 > maxPower then maxPower else v1
  if speed < cutin ∨ speed > cutout then 0 else v2

/-- Lines 167–185: evaluate the spline fitted on the curve's windspeed and
power columns at every (hub-height) wind speed, apply the `(1 - loss)`
factor, and clean up against max power, cut-in and cut-out. -/
def powerMatrix (ext : Collaborators) (curve : List (ℚ × ℚ)) (loss : ℚ)
    (m : List (List ℚ)) : List (List ℚ) :=
  let ws := curve.map Prod.fst
  let pw := curve.map Prod.snd
  let maxPower := npMax pw
  let cutin := npMin ws
  let cutout := npMax ws
  m.map (fun row =>
    row.map (fun s => cleanPower maxPower cutin cutout s (ext.splev ws pw s * (1 - loss))))

/-- The production container handed back to the caller, mirroring the
original windspeed container kind. -/
inductive Production : Type where
  | npArray1 (xs : List ℚ)
  | npArray2 (m : List (List ℚ))
  | series (index : List String) (name : String) (xs : List ℚ)
  | dataframe (index : List String) (columns : List String) (m : List (List ℚ))
deriving DecidableEq, Repr

/-- The capacity factor as `powerGen.mean(axis=0) / maxPower` produces it:
a scalar for a 1-dimensional or `pd.Series` production, a plain vector for
a 2-dimensional numpy production, a labeled vector for a `DataFrame`. -/
inductive CapFactor : Type where
  | scalar (x : ℚ)
  | vec (xs : List ℚ)
  | labeled (labels : List String) (xs : List ℚ)
deriving DecidableEq, Repr

/-- Arithmetic mean of a list (`np.mean` / pandas `.mean()`). -/
def qmean (xs : List ℚ) : ℚ := xs.sum / (xs.length : ℚ)

/-- Column-wise means of a (time × N) matrix (`.mean(axis=0)`). -/
def colMeans (m : List (List ℚ)) (N : Nat) : List ℚ :=
  (List.range N).map (fun j => qmean (m.map (fun r => r.getD j 0)))

/-- First column of a row matrix. -/
def col0 (m : List (List ℚ)) : List ℚ := m.map (fun r => r.headD 0)

/-- The value `powerGen.mean(axis=0) / maxPower` computed on the final production
container (line 194). -/
def capFactorFromProduction : Production → ℚ → CapFactor
  | .npArray1 xs, rp => .scalar (qmean xs / rp)
  | .npArray2 m, rp => .vec ((colMeans m (m.headD []).length).map (fun v => v / rp))
  | .series _ _ xs, rp => .scalar (qmean xs / rp)
  | .dataframe _ cols m, rp => .labeled cols ((colMeans m cols.length).map (fun v => v / rp))

/-- The `TurbinePerformance` namedtuple: production and capacity factor. -/
structure TurbinePerformance : Type where
  production : Production
  capacityFactor : CapFactor
deriving DecidableEq, Repr

/-- Output assembly (lines 188–197): rebuild the caller's container kind
around the cleaned power matrix, then compute the capacity factor from the
assembled production. -/
def assemble (n : Normalized) (pg : List (List ℚ)) (maxPower : ℚ) :
    TurbinePerformance :=
  let production :=
    if n.isNumpy then
      if n.oneD then Production.npArray1 (col0 pg) else Production.npArray2 pg
    else if n.isSeries then Production.series n.index "production" (col0 pg)
    else Production.dataframe n.index n.columns pg
  ⟨production, capFactorFromProduction production maxPower⟩

/-- The full routine, additionally exposing the post-projection batch (the
hub-height wind speeds of line 157/160, or the unchanged input) and the
resolved curve, for stating properties about intermediate values. -/
def simulateCore (ext : Collaborators) (catalog : List (String × List (ℚ × ℚ)))
    (windspeed : WindInput) (performance : PerfInput)
    (measuredHeight roughness alpha hubHeight : PVal) (loss : ℚ) :
    Except ResError (Normalized × List (ℚ × ℚ) × TurbinePerformance) :=
  match normalizeInput windspeed with
  | .error e => .error e
  | .ok n =>
    match resolvePerformance catalog performance with
    | .error e => .error e
    | .ok curve =>
      match projectStage ext n measuredHeight roughness alpha hubHeight with
      | .error e => .error e
      | .ok n2 =>
        if curve.isEmpty then .error .ValueError
        else .ok (n2, curve,
          assemble n2 (powerMatrix ext curve loss n2.matrix)
            (npMax (curve.map Prod.snd)))

/-- The routine `simulateTurbine` as the caller sees it. -/
def simulateTurbine (ext : Collaborators) (catalog : List (String × List (ℚ × ℚ)))
    (windspeed : WindInput) (performance : PerfInput)
    (measuredHeight roughness alpha hubHeight : PVal) (loss : ℚ) :
    Except ResError TurbinePerformance :=
  (simulateCore ext catalog windspeed performance measuredHeight roughness
    alpha hubHeight loss).map (fun x => x.2.2)

/-- The curve ordered by windspeed ascending — the ordering the spec says
the implementation establishes before fitting the spline.  This definition
follows the spec's words, for comparison with `resolvePerformance`, which
is what the source actually passes to `splrep`. -/
def sortByWindspeed (c : List (ℚ × ℚ)) : List (ℚ × ℚ) :=
  c.mergeSort (fun p q => decide (p.1 ≤ q.1))

/-- View a production container as a (time × N) matrix again (a 1-D or
series production is one column), to speak about single entries. -/
def productionMatrix : Production → List (List ℚ)
  | .npArray1 xs => xs.map (fun x => [x])
  | .npArray2 m => m
  | .series _ _ xs => xs.map (fun x => [x])
  | .dataframe _ _ m => m

/-- The process state the call can see besides its own locals: the
module-level turbine library and the two caller-owned argument objects.
Python rebinding of the local names `windspeed` and `performance` inside
`simulateTurbine` does not touch these objects, and the library is only
ever indexed, never assigned. -/
structure PyState : Type where
  turbineLibrary : List (String × List (ℚ × ℚ))
  windspeedArg : WindInput
  performanceArg : PerfInput
deriving DecidableEq, Repr

/-- Reading `TurbineLibrary[name]`: a pure lookup, state unchanged. -/
def lookupLibraryST (st : PyState) (name : String) :
    Except ResError (List (ℚ × ℚ)) × PyState :=
  (match st.turbineLibrary.find? (fun kv => kv.1 == name) with
   | some kv => .ok kv.2
   | none => .error (.UnknownTurbine name), st)

/-- The performance-resolution block reading the shared state. -/
def resolvePerformanceST (st : PyState) :
    Except ResError (List (ℚ × ℚ)) × PyState :=
  match st.performanceArg with
  | .name s => lookupLibraryST st s
  | .pairs ps => (.ok ps, st)

/-- The routine `simulateTurbine` with the shared/caller-owned state threaded
explicitly through every stage, mirroring the source: normalization reads
the windspeed argument, resolution reads the library and the performance
argument, and all later computation happens on fresh local values. -/
def simulateTurbineST (ext : Collaborators) (st : PyState)
    (measuredHeight roughness alpha hubHeight : PVal) (loss : ℚ) :
    Except ResError TurbinePerformance × PyState :=
  match normalizeInput st.windspeedArg with
  | .error e => (.error e, st)
  | .ok n =>
    match resolvePerformanceST st with
    | (.error e, st1) => (.error e, st1)
    | (.ok curve, st1) =>
      match projectStage ext n measuredHeight roughness alpha hubHeight with
      | .error e => (.error e, st1)
      | .ok n2 =>
        if curve.isEmpty then (.error .ValueError, st1)
        else (.ok (assemble n2 (powerMatrix ext curve loss n2.matrix)
            (npMax (curve.map Prod.snd))), st1)

/-- Trivial concrete collaborators (identity projection laws and a spline
that returns the evaluation point), used to instantiate theorems at
concrete inputs. -/
def extId : Collaborators :=
  ⟨fun s _ _ _ => s, fun s _ _ _ => s, fun _ _ x => x⟩

instance {ε α : Type} [DecidableEq ε] [DecidableEq α] :
    DecidableEq (Except ε α) := fun x y =>
  match x, y with
  | .error e1, .error e2 =>
      if h : e1 = e2 then .isTrue (by rw [h])
      else .isFalse (fun hc => h (Except.error.inj hc))
  | .error _, .ok _ => .isFalse (fun hc => Except.noConfusion hc)
  | .ok _, .error _ => .isFalse (fun hc => Except.noConfusion hc)
  | .ok a1, .ok a2 =>
      if h : a1 = a2 then .isTrue (by rw [h])
      else .isFalse (fun hc => h (Except.ok.inj hc))

/-! Helper lemmas about the fold-based numpy minimum and maximum. -/

theorem foldl_min_le_init (x : ℚ) (xs : List ℚ) : xs.foldl min x ≤ x := by
  induction xs generalizing x with
  | nil => exact le_refl x
  | cons y ys ih => exact le_trans (ih (min x y)) (min_le_left x y)

theorem foldl_min_le_mem (x : ℚ) (xs : List ℚ) :
    ∀ y ∈ xs, xs.foldl min x ≤ y := by
  induction xs generalizing x with
  | nil => intro y hy; cases hy
  | cons z zs ih =>
    intro y hy
    rcases List.mem_cons.mp hy with h | h
    · subst h
      exact le_trans (foldl_min_le_init (min x y) zs) (min_le_right x y)
    · exact ih (min x z) y h

theorem foldl_min_mem (x : ℚ) (xs : List ℚ) :
    xs.foldl min x = x ∨ xs.foldl min x ∈ xs := by
  induction xs generalizing x with
  | nil => exact Or.inl rfl
  | cons y ys ih =>
    rcases ih (min x y) with h | h
    · rcases min_choice x y with hc | hc
      · exact Or.inl (by rw [List.foldl_cons, h, hc])
      · refine Or.inr ?_
        rw [List.foldl_cons, h, hc]
        exact List.mem_cons_self y ys
    · exact Or.inr (List.mem_cons_of_mem y h)

theorem npMin_le (l : List ℚ) : ∀ y ∈ l, npMin l ≤ y := by
  cases l with
  | nil => intro y hy; cases hy
  | cons x xs =>
    intro y hy
    rcases List.mem_cons.mp hy with h | h
    · subst h; exact foldl_min_le_init y xs
    · exact foldl_min_le_mem x xs y h

theorem npMin_mem (l : List ℚ) (h : l ≠ []) : npMin l ∈ l := by
  cases l with
  | nil => exact absurd rfl h
  | cons x xs =>
    rcases foldl_min_mem x xs with h2 | h2
    · show xs.foldl min x ∈ x :: xs
      rw [h2]
      exact List.mem_cons_self x xs
    · exact List.mem_cons_of_mem x h2

theorem le_foldl_max_init (x : ℚ) (xs : List ℚ) : x ≤ xs.foldl max x := by
  induction xs generalizing x with
  | nil => exact le_refl x
  | cons y ys ih => exact le_trans (le_max_left x y) (ih (max x y))

theorem le_foldl_max_mem (x : ℚ) (xs : List ℚ) :
    ∀ y ∈ xs, y ≤ xs.foldl max x := by
  induction xs generalizing x with
  | nil => intro y hy; cases hy
  | cons z zs ih =>
    intro y hy
    rcases List.mem_cons.mp hy with h | h
    · subst h
      exact le_trans (le_max_right x y) (le_foldl_max_init (max x y) zs)
    · exact ih (max x z) y h

theorem foldl_max_mem (x : ℚ) (xs : List ℚ) :
    xs.foldl max x = x ∨ xs.foldl max x ∈ xs := by
  induction xs generalizing x with
  | nil => exact Or.inl rfl
  | cons y ys ih =>
    rcases ih (max x y) with h | h
    · rcases max_choice x y with hc | hc
      · exact Or.inl (by rw [List.foldl_cons, h, hc])
      · refine Or.inr ?_
        rw [List.foldl_cons, h, hc]
        exact List.mem_cons_self y ys
    · exact Or.inr (List.mem_cons_of_mem y h)

theorem le_npMax (l : List ℚ) : ∀ y ∈ l, y ≤ npMax l := by
  cases l with
  | nil => intro y hy; cases hy
  | cons x xs =>
    intro y hy
    rcases List.mem_cons.mp hy with h | h
    · subst h; exact le_foldl_max_init y xs
    · exact le_foldl_max_mem x xs y h

theorem npMax_mem (l : List ℚ) (h : l ≠ []) : npMax l ∈ l := by
  cases l with
  | nil => exact absurd rfl h
  | cons x xs =>
    rcases foldl_max_mem x xs with h2 | h2
    · show xs.foldl max x ∈ x :: xs
      rw [h2]
      exact List.mem_cons_self x xs
    · exact List.mem_cons_of_mem x h2

theorem npMin_perm {l1 l2 : List ℚ} (h : l1.Perm l2) : npMin l1 = npMin l2 := by
  rcases eq_or_ne l1 [] with h1 | h1
  · subst h1
    rw [h.nil_eq.symm]
  · have h2 : l2 ≠ [] := by
      intro h2; subst h2; exact h1 h.eq_nil
    exact le_antisymm
      (npMin_le l1 (npMin l2) (h.mem_iff.mpr (npMin_mem l2 h2)))
      (npMin_le l2 (npMin l1) (h.mem_iff.mp (npMin_mem l1 h1)))

theorem npMax_perm {l1 l2 : List ℚ} (h : l1.Perm l2) : npMax l1 = npMax l2 := by
  rcases eq_or_ne l1 [] with h1 | h1
  · subst h1
    rw [h.nil_eq.symm]
  · have h2 : l2 ≠ [] := by
      intro h2; subst h2; exact h1 h.eq_nil
    exact le_antisymm
      (le_npMax l2 (npMax l1) (h.mem_iff.mp (npMax_mem l1 h1)))
      (le_npMax l1 (npMax l2) (h.mem_iff.mpr (npMax_mem l2 h2)))

/-! Helper lemmas about matrices, projection and the pipeline. -/

theorem enum_map_snd_comp (g : ℚ → ℚ) (l : List ℚ) :
    l.enum.map (fun p => g p.2) = l.map g := by
  have h : (fun p : ℕ × ℚ => g p.2) = g ∘ Prod.snd := rfl
  rw [h, ← List.map_map, List.enum_map_snd]

theorem projectMatrix_scalar (f : ℚ → ℚ → ℚ → ℚ → ℚ) (m : List (List ℚ))
    (x y z : ℚ) :
    projectMatrix f m (.scalar x) (.scalar y) (.scalar z)
      = m.map (fun row => row.map (fun s => f s x y z)) := by
  unfold projectMatrix
  refine List.map_congr_left (fun row _ => ?_)
  exact enum_map_snd_comp (fun s => f s x y z) row

theorem cleanPower_out (mp ci co s raw : ℚ) (h : s < ci ∨ s > co) :
    cleanPower mp ci co s raw = 0 := by
  unfold cleanPower
  exact if_pos h

theorem projectStage_ok_shape (ext : Collaborators) (n : Normalized)
    (mh r a hh : PVal) (n2 : Normalized)
    (h : projectStage ext n mh r a hh = .ok n2) :
    n2.isNumpy = n.isNumpy ∧ n2.isSeries = n.isSeries ∧ n2.oneD = n.oneD
      ∧ n2.index = n.index ∧ n2.columns = n.columns ∧ n2.N = n.N := by
  unfold projectStage at h
  split at h
  · injection h with h2
    subst h2
    exact ⟨rfl, rfl, rfl, rfl, rfl, rfl⟩
  · split at h
    · cases h
    · split at h
      · cases h
      · split at h
        · cases h
        · split at h
          · cases h
          · split at h
            · cases h
            · split at h
              · injection h with h2
                subst h2
                exact ⟨rfl, rfl, rfl, rfl, rfl, rfl⟩
              · split at h
                · injection h with h2
                  subst h2
                  exact ⟨rfl, rfl, rfl, rfl, rfl, rfl⟩
                · cases h

theorem simulateCore_ok_inv (ext : Collaborators)
    (catalog : List (String × List (ℚ × ℚ))) (ws : WindInput) (perf : PerfInput)
    (mh r a hh : PVal) (loss : ℚ) (n2 : Normalized) (curve : List (ℚ × ℚ))
    (res : TurbinePerformance)
    (h : simulateCore ext catalog ws perf mh r a hh loss = .ok (n2, curve, res)) :
    ∃ n0, normalizeInput ws = .ok n0
      ∧ resolvePerformance catalog perf = .ok curve
      ∧ projectStage ext n0 mh r a hh = .ok n2
      ∧ curve.isEmpty = false
      ∧ res = assemble n2 (powerMatrix ext curve loss n2.matrix)
          (npMax (curve.map Prod.snd)) := by
  unfold simulateCore at h
  cases hn : normalizeInput ws with
  | error e => rw [hn] at h; cases h
  | ok n0 =>
    rw [hn] at h
    dsimp only at h
    cases hc : resolvePerformance catalog perf with
    | error e => rw [hc] at h; cases h
    | ok c =>
      rw [hc] at h
      dsimp only at h
      cases hp : projectStage ext n0 mh r a hh with
      | error e => rw [hp] at h; cases h
      | ok n1 =>
        rw [hp] at h
        dsimp only at h
        cases hce : c.isEmpty with
        | true => rw [hce] at h; simp at h
        | false =>
          rw [hce] at h
          simp only [Bool.false_eq_true, if_false] at h
          injection h with h2
          injection h2 with ha hb
          injection hb with hb1 hb2
          subst ha
          subst hb1
          subst hb2
          exact ⟨n0, rfl, rfl, hp, hce, rfl⟩

theorem simulateTurbine_ok_inv (ext : Collaborators)
    (catalog : List (String × List (ℚ × ℚ))) (ws : WindInput) (perf : PerfInput)
    (mh r a hh : PVal) (loss : ℚ) (res : TurbinePerformance)
    (h : simulateTurbine ext catalog ws perf mh r a hh loss = .ok res) :
    ∃ n0 n2 curve, normalizeInput ws = .ok n0
      ∧ resolvePerformance catalog perf = .ok curve
      ∧ projectStage ext n0 mh r a hh = .ok n2
      ∧ curve.isEmpty = false
      ∧ res = assemble n2 (powerMatrix ext curve loss n2.matrix)
          (npMax (curve.map Prod.snd)) := by
  unfold simulateTurbine at h
  cases hc : simulateCore ext catalog ws perf mh r a hh loss with
  | error e => rw [hc] at h; cases h
  | ok triple =>
    rw [hc] at h
    obtain ⟨n2, curve, res0⟩ := triple
    simp only [Except.map] at h
    injection h with h2
    subst h2
    obtain ⟨n0, h1, h2, h3, h4, h5⟩ :=
      simulateCore_ok_inv ext catalog ws perf mh r a hh loss n2 curve res0 hc
    exact ⟨n0, n2, curve, h1, h2, h3, h4, h5⟩

theorem getElem?_map_some {α β : Type} (f : α → β) (l : List α) (i : ℕ) (x : α)
    (h : l[i]? = some x) : (l.map f)[i]? = some (f x) := by
  rw [List.getElem?_map, h]
  rfl

theorem getElem?_map_none {α β : Type} (f : α → β) (l : List α) (i : ℕ)
    (h : l[i]? = none) : (l.map f)[i]? = none := by
  rw [List.getElem?_map, h]
  rfl

theorem getD_of_getElem?_some {α : Type} {l : List α} {i : ℕ} {x : α} (d : α)
    (h : l[i]? = some x) : l.getD i d = x := by
  rw [List.getD_eq_getElem?_getD, h]
  rfl

theorem getD_of_getElem?_none {α : Type} {l : List α} {i : ℕ} (d : α)
    (h : l[i]? = none) : l.getD i d = d := by
  rw [List.getD_eq_getElem?_getD, h]
  rfl

theorem assemble_production (n : Normalized) (pg : List (List ℚ)) (mp : ℚ) :
    (assemble n pg mp).production
      = if n.isNumpy then
          (if n.oneD then Production.npArray1 (col0 pg) else Production.npArray2 pg)
        else if n.isSeries then Production.series n.index "production" (col0 pg)
        else Production.dataframe n.index n.columns pg := rfl

theorem assemble_capacityFactor (n : Normalized) (pg : List (List ℚ)) (mp : ℚ) :
    (assemble n pg mp).capacityFactor
      = capFactorFromProduction (assemble n pg mp).production mp := rfl

theorem singleton_matrix_entry_succ (xs : List ℚ) (i j' : ℕ) :
    ((xs.map (fun x => [x])).getD i []).getD (j' + 1) 0 = 0 := by
  cases hxi : xs[i]? with
  | none =>
    rw [getD_of_getElem?_none _ (getElem?_map_none _ _ _ hxi)]
    rfl
  | some x0 =>
    rw [getD_of_getElem?_some _ (getElem?_map_some _ _ _ _ hxi)]
    rfl

theorem map_matrix_entry (F : ℚ → ℚ) (m : List (List ℚ)) (i j : ℕ)
    (row : List ℚ) (s : ℚ) (hrow : m[i]? = some row) (hs : row[j]? = some s) :
    ((m.map (fun r => r.map F)).getD i []).getD j 0 = F s := by
  rw [getD_of_getElem?_some _ (getElem?_map_some _ _ _ _ hrow)]
  rw [getD_of_getElem?_some _ (getElem?_map_some _ _ _ _ hs)]

theorem col0_matrix_entry (F : ℚ → ℚ) (m : List (List ℚ)) (i : ℕ)
    (row : List ℚ) (s : ℚ) (hrow : m[i]? = some row) (hs : row[0]? = some s) :
    (((col0 (m.map (fun r => r.map F))).map (fun x => [x])).getD i []).getD 0 0
      = F s := by
  simp only [col0]
  have h1 : (m.map (fun r => r.map F))[i]? = some (row.map F) :=
    getElem?_map_some _ _ _ _ hrow
  have h2 : ((m.map (fun r => r.map F)).map (fun r => r.headD 0))[i]?
      = some ((row.map F).headD 0) := getElem?_map_some _ _ _ _ h1
  have h3 : (((m.map (fun r => r.map F)).map (fun r => r.headD 0)).map
      (fun x => [x]))[i]? = some [(row.map F).headD 0] :=
    getElem?_map_some _ _ _ _ h2
  rw [getD_of_getElem?_some _ h3]
  cases row with
  | nil => simp at hs
  | cons hd tl =>
    have hhd : hd = s := by simpa using hs
    subst hhd
    rfl

/-! The claims. -/

/-- C1: for every successful call, the returned capacity factor equals the
mean of the returned production values over time divided by the rated power
(the maximum power value of the resolved performance curve), computed once
per call as one scalar per series (line 194 of `wind.py`). -/
theorem capacityFactor_eq_mean_div_rated
    (ext : Collaborators) (catalog : List (String × List (ℚ × ℚ)))
    (ws : WindInput) (perf : PerfInput) (mh r a hh : PVal) (loss : ℚ)
    (n2 : Normalized) (curve : List (ℚ × ℚ)) (res : TurbinePerformance)
    (h : simulateCore ext catalog ws perf mh r a hh loss = .ok (n2, curve, res)) :
    res.capacityFactor
      = capFactorFromProduction res.production (npMax (curve.map Prod.snd)) := by
  obtain ⟨n0, hn, hc, hp, hce, hres⟩ :=
    simulateCore_ok_inv ext catalog ws perf mh r a hh loss n2 curve res h
  subst hres
  rfl

/-- Witness for C1 at a concrete call: one wind speed through a two-point
curve with identity collaborators and zero loss. -/
theorem capacityFactor_eq_mean_div_rated_witness :
    (TurbinePerformance.mk (Production.npArray1 [5])
        (CapFactor.scalar (1/20))).capacityFactor
      = capFactorFromProduction
          (TurbinePerformance.mk (Production.npArray1 [5])
            (CapFactor.scalar (1/20))).production
          (npMax ([((0:ℚ),(0:ℚ)),(10,100)].map Prod.snd)) :=
  capacityFactor_eq_mean_div_rated extId [] (.ndarray1 [5])
    (.pairs [(0,0),(10,100)]) PVal.none PVal.none PVal.none PVal.none 0
    ⟨true, false, true, 1, [], [], [[5]]⟩ [(0,0),(10,100)]
    ⟨Production.npArray1 [5], CapFactor.scalar (1/20)⟩ (by with_unfolding_all decide)

/-- C3: every production entry whose (possibly projected) hub-height wind
speed is strictly below cut-in (minimum curve windspeed) or strictly above
cut-out (maximum curve windspeed) is exactly 0.  The zeroing reads the
projected matrix `n2.matrix`, and `cleanPower` applies it after the
floor-at-0 and ceiling-at-rated clips, so they cannot undo it. -/
theorem production_zero_outside_cut_range
    (ext : Collaborators) (catalog : List (String × List (ℚ × ℚ)))
    (ws : WindInput) (perf : PerfInput) (mh r a hh : PVal) (loss : ℚ)
    (n2 : Normalized) (curve : List (ℚ × ℚ)) (res : TurbinePerformance)
    (h : simulateCore ext catalog ws perf mh r a hh loss = .ok (n2, curve, res))
    (i j : ℕ) (s : ℚ)
    (hs : (n2.matrix[i]?.getD [])[j]? = some s)
    (hout : s < npMin (curve.map Prod.fst) ∨ s > npMax (curve.map Prod.fst)) :
    ((productionMatrix res.production).getD i []).getD j 0 = 0 := by
  obtain ⟨n0, hn, hc, hp, hce, hres⟩ :=
    simulateCore_ok_inv ext catalog ws perf mh r a hh loss n2 curve res h
  subst hres
  cases hrow : n2.matrix[i]? with
  | none =>
    rw [hrow] at hs
    simp at hs
  | some row =>
    rw [hrow] at hs
    simp only [Option.getD_some] at hs
    have hpm : powerMatrix ext curve loss n2.matrix
        = n2.matrix.map (fun r => r.map (fun s0 =>
            cleanPower (npMax (curve.map Prod.snd)) (npMin (curve.map Prod.fst))
              (npMax (curve.map Prod.fst)) s0
              (ext.splev (curve.map Prod.fst) (curve.map Prod.snd) s0 * (1 - loss)))) := rfl
    have hFz : cleanPower (npMax (curve.map Prod.snd)) (npMin (curve.map Prod.fst))
        (npMax (curve.map Prod.fst)) s
        (ext.splev (curve.map Prod.fst) (curve.map Prod.snd) s * (1 - loss)) = 0 :=
      cleanPower_out _ _ _ _ _ hout
    rw [assemble_production]
    by_cases hb1 : n2.isNumpy = true
    · rw [if_pos hb1]
      by_cases hb2 : n2.oneD = true
      · rw [if_pos hb2]
        simp only [productionMatrix]
        rw [hpm]
        cases j with
        | zero =>
          rw [col0_matrix_entry _ _ _ _ _ hrow hs]
          exact hFz
        | succ j' => exact singleton_matrix_entry_succ _ _ _
      · rw [if_neg hb2]
        simp only [productionMatrix]
        rw [hpm]
        rw [map_matrix_entry _ _ _ _ _ _ hrow hs]
        exact hFz
    · rw [if_neg hb1]
      by_cases hb3 : n2.isSeries = true
      · rw [if_pos hb3]
        simp only [productionMatrix]
        rw [hpm]
        cases j with
        | zero =>
          rw [col0_matrix_entry _ _ _ _ _ hrow hs]
          exact hFz
        | succ j' => exact singleton_matrix_entry_succ _ _ _
      · rw [if_neg hb3]
        simp only [productionMatrix]
        rw [hpm]
        rw [map_matrix_entry _ _ _ _ _ _ hrow hs]
        exact hFz

/-- Witness for C3 at a concrete call: wind speed 30 is above the curve
cut-out 10, so the production entry is 0. -/
theorem production_zero_outside_cut_range_witness :
    ((productionMatrix (TurbinePerformance.mk (Production.npArray1 [0])
        (CapFactor.scalar 0)).production).getD 0 []).getD 0 0 = 0 :=
  production_zero_outside_cut_range extId [] (.ndarray1 [30])
    (.pairs [(0,0),(10,100)]) PVal.none PVal.none PVal.none PVal.none 0
    ⟨true, false, true, 1, [], [], [[30]]⟩ [(0,0),(10,100)]
    ⟨Production.npArray1 [0], CapFactor.scalar 0⟩ (by with_unfolding_all decide) 0 0 30
    (by with_unfolding_all decide) (Or.inr (by with_unfolding_all decide))

/-- C4: projection runs exactly when at least one of the four parameters is
non-null.  With all four null the batch (and so the input wind speeds) pass
through the projection block unchanged; with any of them given but
measuredHeight or hubHeight null, the projection block — and therefore the
whole call, for any collaborators — fails with
IncompleteProjectionParameters before any projection or interpolation. -/
theorem projection_activation (ext : Collaborators) (mh r a hh : PVal) :
    (∀ n : Normalized,
      mh = PVal.none ∧ hh = PVal.none ∧ r = PVal.none ∧ a = PVal.none →
      projectStage ext n mh r a hh = .ok n)
    ∧ (∀ n : Normalized,
      ¬(mh = PVal.none ∧ hh = PVal.none ∧ r = PVal.none ∧ a = PVal.none) →
      (mh = PVal.none ∨ hh = PVal.none) →
      projectStage ext n mh r a hh = .error .IncompleteProjectionParameters)
    ∧ (∀ (catalog : List (String × List (ℚ × ℚ))) (ws : WindInput)
        (perf : PerfInput) (loss : ℚ) (n0 : Normalized) (curve : List (ℚ × ℚ)),
      normalizeInput ws = .ok n0 →
      resolvePerformance catalog perf = .ok curve →
      ¬(mh = PVal.none ∧ hh = PVal.none ∧ r = PVal.none ∧ a = PVal.none) →
      (mh = PVal.none ∨ hh = PVal.none) →
      simulateTurbine ext catalog ws perf mh r a hh loss
        = .error .IncompleteProjectionParameters) := by
  refine ⟨?_, ?_, ?_⟩
  · intro n hall
    unfold projectStage
    rw [if_pos hall]
  · intro n hnall hmiss
    unfold projectStage
    rw [if_neg hnall, if_pos hmiss]
  · intro catalog ws perf loss n0 curve hn hc hnall hmiss
    have hps : projectStage ext n0 mh r a hh
        = .error .IncompleteProjectionParameters := by
      unfold projectStage
      rw [if_neg hnall, if_pos hmiss]
    unfold simulateTurbine simulateCore
    rw [hn]
    dsimp only
    rw [hc]
    dsimp only
    rw [hps]
    rfl

/-- Witness for C4 at concrete calls: all-null parameters leave the batch
unchanged, and a lone measuredHeight makes the call fail. -/
theorem projection_activation_witness :
    projectStage extId ⟨true, false, true, 1, [], [], [[5]]⟩
        PVal.none PVal.none PVal.none PVal.none
      = .ok ⟨true, false, true, 1, [], [], [[5]]⟩
    ∧ simulateTurbine extId [] (.ndarray1 [5]) (.pairs [(0,0),(10,100)])
        (.scalar 10) PVal.none PVal.none PVal.none 0
      = .error .IncompleteProjectionParameters :=
  ⟨(projection_activation extId PVal.none PVal.none PVal.none PVal.none).1
      ⟨true, false, true, 1, [], [], [[5]]⟩ ⟨rfl, rfl, rfl, rfl⟩,
   (projection_activation extId (.scalar 10) PVal.none PVal.none PVal.none).2.2
      [] (.ndarray1 [5]) (.pairs [(0,0),(10,100)]) 0
      ⟨true, false, true, 1, [], [], [[5]]⟩ [(0,0),(10,100)]
      (by with_unfolding_all decide) (by with_unfolding_all decide)
      (by with_unfolding_all decide) (Or.inr rfl)⟩

/-- C2 counterexample: a pair-sequence given in descending windspeed order
is resolved — and therefore handed to `splrep` (see `powerMatrix`, which
takes the curve's columns as given) — in the caller's order, which differs
from the windspeed-ascending order the claim asserts. -/
theorem curve_not_sorted_counterexample :
    resolvePerformance TurbineLibrary (.pairs [(2, 10), (1, 5), (3, 20), (4, 40)])
      = .ok [(2, 10), (1, 5), (3, 20), (4, 40)]
    ∧ sortByWindspeed [((2:ℚ), (10:ℚ)), (1, 5), (3, 20), (4, 40)]
        = [(1, 5), (2, 10), (3, 20), (4, 40)]
    ∧ ([((2:ℚ), (10:ℚ)), (1, 5), (3, 20), (4, 40)] : List (ℚ × ℚ))
        ≠ [(1, 5), (2, 10), (3, 20), (4, 40)] :=
  ⟨rfl, by with_unfolding_all decide, by with_unfolding_all decide⟩

/-- C2 amended: the resolved performance curve is not sorted before the
spline fit — a pair-sequence is used directly, in the caller's order; only
cut-in, cut-out and rated power are insensitive to the order, being the
minimum/maximum of the windspeed and power columns. -/
theorem curve_used_unsorted (catalog : List (String × List (ℚ × ℚ)))
    (ps : List (ℚ × ℚ)) :
    resolvePerformance catalog (.pairs ps) = .ok ps
    ∧ npMin ((sortByWindspeed ps).map Prod.fst) = npMin (ps.map Prod.fst)
    ∧ npMax ((sortByWindspeed ps).map Prod.fst) = npMax (ps.map Prod.fst)
    ∧ npMax ((sortByWindspeed ps).map Prod.snd) = npMax (ps.map Prod.snd) :=
  ⟨rfl,
   npMin_perm ((List.mergeSort_perm ps _).map Prod.fst),
   npMax_perm ((List.mergeSort_perm ps _).map Prod.fst),
   npMax_perm ((List.mergeSort_perm ps _).map Prod.snd)⟩

/-- C5: for an otherwise-valid call, supplying both heights (scalars) with
roughness and alpha both null fails with MissingProjectionLaw, while
supplying roughness alone with both heights succeeds. -/
theorem missing_projection_law :
    (∀ (ext : Collaborators) (catalog : List (String × List (ℚ × ℚ)))
       (ws : WindInput) (perf : PerfInput) (loss x y : ℚ)
       (n0 : Normalized) (curve : List (ℚ × ℚ)),
      normalizeInput ws = .ok n0 →
      resolvePerformance catalog perf = .ok curve →
      simulateTurbine ext catalog ws perf (.scalar x) PVal.none PVal.none
        (.scalar y) loss = .error .MissingProjectionLaw)
    ∧ (∀ (ext : Collaborators) (catalog : List (String × List (ℚ × ℚ)))
       (ws : WindInput) (perf : PerfInput) (loss x y z : ℚ)
       (n0 : Normalized) (curve : List (ℚ × ℚ)),
      normalizeInput ws = .ok n0 →
      resolvePerformance catalog perf = .ok curve →
      curve ≠ [] →
      ∃ res, simulateTurbine ext catalog ws perf (.scalar x) (.scalar z)
        PVal.none (.scalar y) loss = .ok res) := by
  constructor
  · intro ext catalog ws perf loss x y n0 curve hn hc
    have hps : projectStage ext n0 (.scalar x) PVal.none PVal.none (.scalar y)
        = .error .MissingProjectionLaw := rfl
    unfold simulateTurbine simulateCore
    rw [hn]
    dsimp only
    rw [hc]
    dsimp only
    rw [hps]
    rfl
  · intro ext catalog ws perf loss x y z n0 curve hn hc hne
    have hps : projectStage ext n0 (.scalar x) (.scalar z) PVal.none (.scalar y)
        = .ok { n0 with matrix := projectMatrix ext.projectByLogLaw n0.matrix (.scalar x) (.scalar y) (.scalar z) } := rfl
    have hie : curve.isEmpty = false := by
      cases curve with
      | nil => exact absurd rfl hne
      | cons c cs => rfl
    exact ⟨_, by
      unfold simulateTurbine simulateCore
      rw [hn]
      dsimp only
      rw [hc]
      dsimp only
      rw [hps]
      dsimp only
      rw [hie]
      rfl⟩

/-- Witness for C5 at concrete calls: heights alone fail with
MissingProjectionLaw, heights plus roughness succeed. -/
theorem missing_projection_law_witness :
    simulateTurbine extId [] (.ndarray1 [5]) (.pairs [(0, 0), (10, 100)])
        (.scalar 10) PVal.none PVal.none (.scalar 100) 0
      = .error .MissingProjectionLaw
    ∧ ∃ res, simulateTurbine extId [] (.ndarray1 [5]) (.pairs [(0, 0), (10, 100)])
        (.scalar 10) (.scalar (1/10)) PVal.none (.scalar 100) 0 = .ok res :=
  ⟨missing_projection_law.1 extId [] (.ndarray1 [5]) (.pairs [(0, 0), (10, 100)])
      0 10 100 ⟨true, false, true, 1, [], [], [[5]]⟩ [(0, 0), (10, 100)]
      (by with_unfolding_all decide) (by with_unfolding_all decide),
   missing_projection_law.2 extId [] (.ndarray1 [5]) (.pairs [(0, 0), (10, 100)])
      0 10 100 (1/10) ⟨true, false, true, 1, [], [], [[5]]⟩ [(0, 0), (10, 100)]
      (by with_unfolding_all decide) (by with_unfolding_all decide)
      (by with_unfolding_all decide)⟩

/-- C6: with both roughness and alpha supplied (scalars, with both heights),
exactly one projection is performed — elementwise with the logarithmic law
and the roughness value, whatever the power-law collaborator is — and no
validation error is raised for the redundant combination. -/
theorem roughness_precedence (ext : Collaborators)
    (catalog : List (String × List (ℚ × ℚ))) (ws : WindInput) (perf : PerfInput)
    (loss mx hy rr aa : ℚ) (n0 : Normalized) (curve : List (ℚ × ℚ))
    (hn : normalizeInput ws = .ok n0)
    (hc : resolvePerformance catalog perf = .ok curve)
    (hne : curve ≠ []) :
    ∃ res, simulateCore ext catalog ws perf (.scalar mx) (.scalar rr)
        (.scalar aa) (.scalar hy) loss
      = .ok ({ n0 with matrix := n0.matrix.map (fun row => row.map (fun s => ext.projectByLogLaw s mx hy rr)) }, curve, res) := by
  have hps : projectStage ext n0 (.scalar mx) (.scalar rr) (.scalar aa) (.scalar hy)
      = .ok { n0 with matrix := n0.matrix.map (fun row => row.map (fun s => ext.projectByLogLaw s mx hy rr)) } := by
    have h1 : projectStage ext n0 (.scalar mx) (.scalar rr) (.scalar aa) (.scalar hy)
        = .ok { n0 with matrix := projectMatrix ext.projectByLogLaw n0.matrix (.scalar mx) (.scalar hy) (.scalar rr) } := rfl
    rw [h1, projectMatrix_scalar]
  have hie : curve.isEmpty = false := by
    cases curve with
    | nil => exact absurd rfl hne
    | cons c cs => rfl
  exact ⟨_, by
    unfold simulateCore
    rw [hn]
    dsimp only
    rw [hc]
    dsimp only
    rw [hps]
    dsimp only
    rw [hie]
    rfl⟩

/-- Witness for C6 at a concrete call: roughness and alpha both given, the
hub-height matrix is the log-law projection of the input. -/
theorem roughness_precedence_witness :
    ∃ res, simulateCore extId [] (.ndarray1 [8]) (.pairs [(0, 0), (10, 100)])
        (.scalar 50) (.scalar (1/10)) (.scalar (3/10)) (.scalar 50) 0
      = .ok ((⟨true, false, true, 1, [], [],
          [[(8:ℚ)]].map (fun row => row.map (fun s => extId.projectByLogLaw s 50 50 (1/10)))⟩ : Normalized),
          [(0, 0), (10, 100)], res) :=
  roughness_precedence extId [] (.ndarray1 [8]) (.pairs [(0, 0), (10, 100)])
    0 50 50 (1/10) (3/10) ⟨true, false, true, 1, [], [], [[8]]⟩ [(0, 0), (10, 100)]
    (by with_unfolding_all decide) (by with_unfolding_all decide)
    (by with_unfolding_all decide)

theorem assemble_production_shape (n2 : Normalized) (pg : List (List ℚ)) (mp : ℚ) :
    (n2.isNumpy = true → n2.oneD = true →
      ∃ xs, (assemble n2 pg mp).production = .npArray1 xs)
    ∧ (n2.isNumpy = true → n2.oneD = false →
      ∃ m, (assemble n2 pg mp).production = .npArray2 m)
    ∧ (n2.isNumpy = false → n2.isSeries = true →
      ∃ xs, (assemble n2 pg mp).production = .series n2.index "production" xs)
    ∧ (n2.isNumpy = false → n2.isSeries = false →
      ∃ m, (assemble n2 pg mp).production = .dataframe n2.index n2.columns m) := by
  refine ⟨?_, ?_, ?_, ?_⟩
  · intro h1 h2
    rw [assemble_production, h1, h2]
    exact ⟨_, rfl⟩
  · intro h1 h2
    rw [assemble_production, h1, h2]
    exact ⟨_, rfl⟩
  · intro h1 h2
    rw [assemble_production, h1, h2]
    exact ⟨_, rfl⟩
  · intro h1 h2
    rw [assemble_production, h1, h2]
    exact ⟨_, rfl⟩

/-- C7: the returned production matches the caller's input convention:
a labeled series input yields a series production carrying exactly the
input's index; a labeled table input yields a table production carrying
exactly the input's index and column labels in the same order; a 1-D
unlabeled input (numpy array or flat list) yields an unlabeled 1-D
production; an unlabeled multi-series input (2-D array or list of lists)
yields a plain 2-D production. -/
theorem production_matches_input_convention (ext : Collaborators)
    (catalog : List (String × List (ℚ × ℚ))) (perf : PerfInput)
    (mh r a hh : PVal) (loss : ℚ) :
    (∀ (idx : List String) (nm : String) (d : List ℚ) (res : TurbinePerformance),
      simulateTurbine ext catalog (.series idx nm d) perf mh r a hh loss = .ok res →
      ∃ xs, res.production = .series idx "production" xs)
    ∧ (∀ (idx cols : List String) (d : List (List ℚ)) (res : TurbinePerformance),
      simulateTurbine ext catalog (.dataframe idx cols d) perf mh r a hh loss = .ok res →
      ∃ m, res.production = .dataframe idx cols m)
    ∧ (∀ (d : List ℚ) (res : TurbinePerformance),
      simulateTurbine ext catalog (.ndarray1 d) perf mh r a hh loss = .ok res →
      ∃ xs, res.production = .npArray1 xs)
    ∧ (∀ (d : List ℚ) (res : TurbinePerformance),
      simulateTurbine ext catalog (.list1 d) perf mh r a hh loss = .ok res →
      ∃ xs, res.production = .npArray1 xs)
    ∧ (∀ (d : List (List ℚ)) (res : TurbinePerformance),
      simulateTurbine ext catalog (.ndarray2 d) perf mh r a hh loss = .ok res →
      ∃ m, res.production = .npArray2 m)
    ∧ (∀ (d : List (List ℚ)) (res : TurbinePerformance),
      simulateTurbine ext catalog (.listOfLists d) perf mh r a hh loss = .ok res →
      ∃ m, res.production = .npArray2 m) := by
  refine ⟨?_, ?_, ?_, ?_, ?_, ?_⟩
  · intro idx nm d res h
    obtain ⟨n0, n2, curve, hn, hc, hp, hce, hres⟩ :=
      simulateTurbine_ok_inv ext catalog _ perf mh r a hh loss res h
    have hn0 : (⟨false, true, false, 1, idx, [], d.map (fun x => [x])⟩ : Normalized)
        = n0 := Except.ok.inj hn
    obtain ⟨e1, e2, e3, e4, e5, e6⟩ := projectStage_ok_shape _ _ _ _ _ _ _ hp
    rw [← hn0] at e1 e2 e4
    subst hres
    obtain ⟨xs, hxs⟩ := (assemble_production_shape n2 _ _).2.2.1 e1 e2
    refine ⟨xs, ?_⟩
    rw [hxs, e4]
  · intro idx cols d res h
    obtain ⟨n0, n2, curve, hn, hc, hp, hce, hres⟩ :=
      simulateTurbine_ok_inv ext catalog _ perf mh r a hh loss res h
    have hn0 : (⟨false, false, false, cols.length, idx, cols, d⟩ : Normalized)
        = n0 := Except.ok.inj hn
    obtain ⟨e1, e2, e3, e4, e5, e6⟩ := projectStage_ok_shape _ _ _ _ _ _ _ hp
    rw [← hn0] at e1 e2 e4 e5
    subst hres
    obtain ⟨m, hm⟩ := (assemble_production_shape n2 _ _).2.2.2 e1 e2
    refine ⟨m, ?_⟩
    rw [hm, e4, e5]
  · intro d res h
    obtain ⟨n0, n2, curve, hn, hc, hp, hce, hres⟩ :=
      simulateTurbine_ok_inv ext catalog _ perf mh r a hh loss res h
    have hn0 : (⟨true, false, true, 1, [], [], d.map (fun x => [x])⟩ : Normalized)
        = n0 := Except.ok.inj hn
    obtain ⟨e1, e2, e3, e4, e5, e6⟩ := projectStage_ok_shape _ _ _ _ _ _ _ hp
    rw [← hn0] at e1 e3
    subst hres
    exact (assemble_production_shape n2 _ _).1 e1 e3
  · intro d res h
    obtain ⟨n0, n2, curve, hn, hc, hp, hce, hres⟩ :=
      simulateTurbine_ok_inv ext catalog _ perf mh r a hh loss res h
    cases hd : d.isEmpty with
    | true =>
      rw [normalizeInput] at hn
      rw [hd] at hn
      simp at hn
    | false =>
      rw [normalizeInput] at hn
      rw [hd] at hn
      simp only [Bool.false_eq_true, if_false] at hn
      have hn0 : (⟨true, false, true, 1, [], [], d.map (fun x => [x])⟩ : Normalized)
          = n0 := Except.ok.inj hn
      obtain ⟨e1, e2, e3, e4, e5, e6⟩ := projectStage_ok_shape _ _ _ _ _ _ _ hp
      rw [← hn0] at e1 e3
      subst hres
      exact (assemble_production_shape n2 _ _).1 e1 e3
  · intro d res h
    obtain ⟨n0, n2, curve, hn, hc, hp, hce, hres⟩ :=
      simulateTurbine_ok_inv ext catalog _ perf mh r a hh loss res h
    have hn0 : (⟨true, false, false, (d.headD []).length, [], [], d⟩ : Normalized)
        = n0 := Except.ok.inj hn
    obtain ⟨e1, e2, e3, e4, e5, e6⟩ := projectStage_ok_shape _ _ _ _ _ _ _ hp
    rw [← hn0] at e1 e3
    subst hres
    exact (assemble_production_shape n2 _ _).2.1 e1 e3
  · intro d res h
    obtain ⟨n0, n2, curve, hn, hc, hp, hce, hres⟩ :=
      simulateTurbine_ok_inv ext catalog _ perf mh r a hh loss res h
    cases hd : (d.isEmpty || (d.headD []).isEmpty) with
    | true =>
      rw [normalizeInput] at hn
      rw [hd] at hn
      simp at hn
    | false =>
      rw [normalizeInput] at hn
      rw [hd] at hn
      simp only [Bool.false_eq_true, if_false] at hn
      have hn0 : (⟨true, false, false, d.length, [], [], d.transpose⟩ : Normalized)
          = n0 := Except.ok.inj hn
      obtain ⟨e1, e2, e3, e4, e5, e6⟩ := projectStage_ok_shape _ _ _ _ _ _ _ hp
      rw [← hn0] at e1 e3
      subst hres
      exact (assemble_production_shape n2 _ _).2.1 e1 e3

/-- Witness for C7 at a concrete call: a labeled series input returns a
series production with the same index. -/
theorem production_matches_input_convention_witness :
    ∃ xs, (TurbinePerformance.mk (Production.series ["t0"] "production" [5])
        (CapFactor.scalar (1/20))).production
      = .series ["t0"] "production" xs :=
  (production_matches_input_convention extId [] (.pairs [(0, 0), (10, 100)])
      PVal.none PVal.none PVal.none PVal.none 0).1 ["t0"] "w" [5]
    ⟨Production.series ["t0"] "production" [5], CapFactor.scalar (1/20)⟩
    (by with_unfolding_all decide)

/-- C8 counterexample: with a labeled single-series windspeed batch
(`pd.Series`) and a labeled measuredHeight of matching length, the call
fails with the uncontrolled AttributeError (`pd.Series` has no `.columns`
for the label check to read), not with the LabelMismatch failure the claim
prescribes for labeled parameters. -/
theorem broadcaster_label_crash_counterexample :
    simulateTurbine extId [] (.series ["t0"] "w" [5]) (.pairs [(0, 0), (10, 100)])
        (.pseries ["a"] [10]) PVal.none PVal.none (.scalar 100) 0
      = .error .AttributeError
    ∧ (Except.error ResError.AttributeError
        : Except ResError TurbinePerformance)
        ≠ .error (.LabelMismatch "measuredHeight") := by
  refine ⟨by with_unfolding_all decide, by decide⟩

/-- C8 amended: the broadcaster's rules, with the label-check clause
restricted as the code forces: a scalar is kept and broadcasts to every
series; a list or 1-D array is accepted exactly when its length is N; a
2-D array exactly when its shape is (N,1), column-collapsed; a labeled
parameter whose labels do not exactly match a labeled-table batch's column
labels (set and order) fails with LabelMismatch — but against a labeled
single-series batch every labeled parameter of matching shape fails with
an uncontrolled AttributeError instead; every accepted parameter is
per-series (a broadcast scalar or a vector of length N). -/
theorem broadcaster_rules (N : Nat) (name : String) :
    (∀ (kind : BatchKind) (x : ℚ),
      fixVal kind N (.scalar x) name = .ok (.scalar x)
      ∧ ∀ j, (FixedVal.scalar x).valAt j = x)
    ∧ (∀ (kind : BatchKind) (xs : List ℚ),
      fixVal kind N (.list xs) name
        = if xs.length = N then .ok (.vec xs) else .error (.ShapeMismatch name))
    ∧ (∀ (kind : BatchKind) (xs : List ℚ),
      fixVal kind N (.ndarray1 xs) name
        = if xs.length = N then .ok (.vec xs) else .error (.ShapeMismatch name))
    ∧ (∀ (kind : BatchKind) (xss : List (List ℚ)),
      fixVal kind N (.ndarray2 xss) name
        = if xss.length = N ∧ (xss.headD []).length = 1
          then .ok (.vec (xss.map (fun r => r.headD 0)))
          else .error (.ShapeMismatch name))
    ∧ (∀ (cols labels : List String) (xs : List ℚ),
      xs.length = N → labels ≠ cols →
      fixVal (.df cols) N (.pseries labels xs) name = .error (.LabelMismatch name))
    ∧ (∀ (labels : List String) (xs : List ℚ), xs.length = N →
      fixVal .sr N (.pseries labels xs) name = .error .AttributeError)
    ∧ (∀ (kind : BatchKind) (val : PVal) (fv : FixedVal),
      fixVal kind N val name = .ok fv → fv.lenOK N) := by
  refine ⟨?_, ?_, ?_, ?_, ?_, ?_, ?_⟩
  · intro kind x
    exact ⟨rfl, fun j => rfl⟩
  · intro kind xs
    rfl
  · intro kind xs
    rfl
  · intro kind xss
    rfl
  · intro cols labels xs hlen hne
    simp only [fixVal]
    rw [if_pos hlen]
    simp only [labelCheck]
    rw [if_neg hne]
  · intro labels xs hlen
    simp only [fixVal]
    rw [if_pos hlen]
    rfl
  · intro kind val fv h
    cases val with
    | none =>
      simp only [fixVal] at h
      injection h with h2
      subst h2
      trivial
    | scalar x =>
      simp only [fixVal] at h
      injection h with h2
      subst h2
      trivial
    | list xs =>
      simp only [fixVal] at h
      split at h
      · injection h with h2
        subst h2
        assumption
      · cases h
    | ndarray1 xs =>
      simp only [fixVal] at h
      split at h
      · injection h with h2
        subst h2
        assumption
      · cases h
    | ndarray2 xss =>
      simp only [fixVal] at h
      split at h
      · rename_i hcond
        injection h with h2
        subst h2
        show (xss.map (fun r => r.headD 0)).length = N
        rw [List.length_map]
        exact hcond.1
      · cases h
    | pseries labels xs =>
      simp only [fixVal] at h
      split at h
      · rename_i hcond
        cases kind with
        | np =>
          simp only [labelCheck] at h
          injection h with h2
          subst h2
          exact hcond
        | df cols =>
          simp only [labelCheck] at h
          by_cases hl : labels = cols
          · rw [if_pos hl] at h
            injection h with h2
            subst h2
            exact hcond
          · rw [if_neg hl] at h
            cases h
        | sr =>
          simp only [labelCheck] at h
          cases h
      · cases h
    | pdframe idx cols data =>
      simp only [fixVal] at h
      split at h
      · rename_i hcond
        cases kind with
        | np =>
          simp only [labelCheck] at h
          injection h with h2
          subst h2
          show (data.map (fun r => r.headD 0)).length = N
          rw [List.length_map]
          exact hcond.1
        | df cols2 =>
          simp only [labelCheck] at h
          by_cases hl : idx = cols2
          · rw [if_pos hl] at h
            injection h with h2
            subst h2
            show (data.map (fun r => r.headD 0)).length = N
            rw [List.length_map]
            exact hcond.1
          · rw [if_neg hl] at h
            cases h
        | sr =>
          simp only [labelCheck] at h
          cases h
      · cases h
    | other desc =>
      simp only [fixVal] at h
      cases h

/-- Witness for C8 at concrete calls: a mismatched labeled parameter
against a labeled table fails with LabelMismatch, and a matching-length
list against a numpy batch is accepted as a per-series vector. -/
theorem broadcaster_rules_witness :
    fixVal (BatchKind.df ["a", "b"]) 2 (.pseries ["b", "a"] [1, 2]) "roughness"
      = .error (.LabelMismatch "roughness")
    ∧ fixVal BatchKind.np 2 (.list [1, 2]) "alpha" = .ok (.vec [1, 2]) :=
  ⟨(broadcaster_rules 2 "roughness").2.2.2.2.1 ["a", "b"] ["b", "a"] [1, 2]
      (by decide) (by decide),
   by
    rw [(broadcaster_rules 2 "alpha").2.1 BatchKind.np [1, 2]]
    rfl⟩

/-- C9: every windspeed argument whose container shape/type is not one of
the recognized kinds fails with the UnsupportedInputKind error — at the
normalizer and as the result of the whole call — and with no other,
uncontrolled error. -/
theorem unsupported_input_kind (ext : Collaborators)
    (catalog : List (String × List (ℚ × ℚ))) (perf : PerfInput)
    (mh r a hh : PVal) (loss : ℚ) (desc : String) :
    normalizeInput (.other desc) = .error .UnsupportedInputKind
    ∧ simulateTurbine ext catalog (.other desc) perf mh r a hh loss
      = .error .UnsupportedInputKind :=
  ⟨rfl, rfl⟩

/-- C10: the call never mutates shared or caller-owned state: for every
input, whether the call succeeds or fails, the state-threaded call returns
the turbine library and the caller's windspeed and performance arguments
unchanged, and its result is exactly the pure function of the initial
state. -/
theorem no_mutation (ext : Collaborators) (st : PyState) (mh r a hh : PVal)
    (loss : ℚ) :
    (simulateTurbineST ext st mh r a hh loss).2 = st
    ∧ (simulateTurbineST ext st mh r a hh loss).1
      = simulateTurbine ext st.turbineLibrary st.windspeedArg st.performanceArg
          mh r a hh loss := by
  have hr : resolvePerformanceST st
      = (resolvePerformance st.turbineLibrary st.performanceArg, st) := by
    unfold resolvePerformanceST resolvePerformance lookupLibraryST
    cases st.performanceArg with
    | name s => rfl
    | pairs ps => rfl
  unfold simulateTurbineST simulateTurbine simulateCore
  rw [hr]
  cases hn : normalizeInput st.windspeedArg with
  | error e => exact ⟨rfl, rfl⟩
  | ok n =>
    dsimp only
    cases hc : resolvePerformance st.turbineLibrary st.performanceArg with
    | error e => exact ⟨rfl, rfl⟩
    | ok curve =>
      dsimp only
      cases hp : projectStage ext n mh r a hh with
      | error e => exact ⟨rfl, rfl⟩
      | ok n2 =>
        dsimp only
        cases hce : curve.isEmpty with
        | true => exact ⟨rfl, rfl⟩
        | false => exact ⟨rfl, rfl⟩

end Wind
